import Mathlib

/-!
Verification of the dual-barcode label printing system.

This file gives a shallow embedding, in Lean 4, of the core algorithms of the
repository (the Code 128 symbol encoder, the label layout engine, the CPCL
protocol serializer, and the scan-and-print workflow of the scan page), and
proves or refutes the specified properties about them.

Sources embedded:
- frontend/src/utils/labelPreviewRenderer.ts  (Code 128 encoder and pattern table)
- frontend/src/utils/labelLayoutModel.ts      (layout engine)
- frontend/src/utils/cpclTemplates.ts         (CPCL serializer)
- frontend/src/utils/scannerOnlyInput.ts      (input normalization)
- frontend/src/pages/ScanPrint.tsx            (scan workflow: validation,
  submit handlers, print routine)

Machine numbers are modelled as Nat or Int (the JavaScript values involved are
integers throughout); strings are Lean Strings; character codes are Nat.
-/

namespace LabelSystem

/-! ## Code 128 symbol encoder (labelPreviewRenderer.ts) -/

/-- Embedding of CODE128_PATTERNS from labelPreviewRenderer.ts: the 107-entry
module-width pattern table (index 0 through 106). -/
def CODE128_PATTERNS : List (List Nat) := [
  [2,1,2,2,2,2], [2,2,2,1,2,2], [2,2,2,2,2,1], [1,2,1,2,2,3], [1,2,1,3,2,2],
  [1,3,1,2,2,2], [1,2,2,2,1,3], [1,2,2,3,1,2], [1,3,2,2,1,2], [2,2,1,2,1,3],
  [2,2,1,3,1,2], [2,3,1,2,1,2], [1,1,2,2,3,2], [1,2,2,1,3,2], [1,2,2,2,3,1],
  [1,1,3,2,2,2], [1,2,3,1,2,2], [1,2,3,2,2,1], [2,2,3,2,1,1], [2,2,1,1,3,2],
  [2,2,1,2,3,1], [2,1,3,2,1,2], [2,2,3,1,1,2], [3,1,2,1,3,1], [3,1,1,2,2,2],
  [3,2,1,1,2,2], [3,2,1,2,2,1], [3,1,2,2,1,2], [3,2,2,1,1,2], [3,2,2,2,1,1],
  [2,1,2,1,2,3], [2,1,2,3,2,1], [2,3,2,1,2,1], [1,1,1,3,2,3], [1,3,1,1,2,3],
  [1,3,1,3,2,1], [1,1,2,3,1,3], [1,3,2,1,1,3], [1,3,2,3,1,1], [2,1,1,3,1,3],
  [2,3,1,1,1,3], [2,3,1,3,1,1], [1,1,2,1,3,3], [1,1,2,3,3,1], [1,3,2,1,3,1],
  [1,1,3,1,2,3], [1,1,3,3,2,1], [1,3,3,1,2,1], [3,1,3,1,2,1], [2,1,1,3,3,1],
  [2,3,1,1,3,1], [2,1,3,1,1,3], [2,1,3,3,1,1], [2,1,3,1,3,1], [3,1,1,1,2,3],
  [3,1,1,3,2,1], [3,3,1,1,2,1], [3,1,2,1,1,3], [3,1,2,3,1,1], [3,3,2,1,1,1],
  [3,1,4,1,1,1], [2,2,1,4,1,1], [4,3,1,1,1,1], [1,1,1,2,2,4], [1,1,1,4,2,2],
  [1,2,1,1,2,4], [1,2,1,4,2,1], [1,4,1,1,2,2], [1,4,1,2,2,1], [1,1,2,2,1,4],
  [1,1,2,4,1,2], [1,2,2,1,1,4], [1,2,2,4,1,1], [1,4,2,1,1,2], [1,4,2,2,1,1],
  [2,4,1,2,1,1], [2,2,1,1,1,4], [4,1,3,1,1,1], [2,4,1,1,1,2], [1,3,4,1,1,1],
  [1,1,1,2,4,2], [1,2,1,1,4,2], [1,2,1,2,4,1], [1,1,4,2,1,2], [1,2,4,1,1,2],
  [1,2,4,2,1,1], [4,1,1,2,1,2], [4,2,1,1,1,2], [4,2,1,2,1,1], [2,1,2,1,4,1],
  [2,1,4,1,2,1], [4,1,2,1,2,1], [1,1,1,1,4,3], [1,1,1,3,4,1], [1,3,1,1,4,1],
  [1,1,4,1,1,3], [1,1,4,3,1,1], [4,1,1,1,1,3], [4,1,1,3,1,1], [1,1,3,1,4,1],
  [1,1,4,1,3,1], [3,1,1,1,4,1], [4,1,1,1,3,1], [2,1,1,4,1,2], [2,1,1,2,1,4],
  [2,1,1,2,3,2], [2,3,3,1,1,1,2]
]

/-- Embedding of START_CODE_B from labelPreviewRenderer.ts. -/
def START_CODE_B : Nat := 104

/-- Embedding of STOP_CODE from labelPreviewRenderer.ts. -/
def STOP_CODE : Nat := 106

/-- Per-character symbol value computed by the loop body of encodeCode128B:
value is charCode minus 32, and an out-of-range value (below 0 or above 95)
is replaced by 0. -/
def code128SymbolValue (charCode : Nat) : Nat :=
  if (charCode : Int) - 32 < 0 ∨ (charCode : Int) - 32 > 95 then 0
  else ((charCode : Int) - 32).toNat

/-- One iteration of the encodeCode128B loop: the accumulator carries the
codes array built so far and the running checksum; the input carries the
zero-based index and the character code at that index. -/
def encodeCode128BStep (acc : List Nat × Nat) (ic : Nat × Nat) : List Nat × Nat :=
  let value := code128SymbolValue ic.2
  (acc.1 ++ [value], acc.2 + value * (ic.1 + 1))

/-- Embedding of encodeCode128B from labelPreviewRenderer.ts. The input text
is given as its list of character codes. The codes array starts as the
singleton start symbol and the checksum starts at the start symbol value; the
loop appends each symbol value and accumulates value times (index plus one);
finally the checksum modulo 103 and the stop symbol are appended. -/
def encodeCode128B (text : List Nat) : List Nat :=
  let res := text.enum.foldl encodeCode128BStep ([START_CODE_B], START_CODE_B)
  res.1 ++ [res.2 % 103, STOP_CODE]

/-- Weighted sum of a list of symbol values where the first element has the
given weight and each later element has weight one larger. -/
def code128WeightedSum : Nat → List Nat → Nat
  | _, [] => 0
  | w, v :: vs => v * w + code128WeightedSum (w + 1) vs

theorem encodeCode128B_foldl (text : List Nat) (n : Nat) (codes : List Nat) (k : Nat) :
    (List.enumFrom n text).foldl encodeCode128BStep (codes, k) =
      (codes ++ text.map code128SymbolValue,
       k + code128WeightedSum (n + 1) (text.map code128SymbolValue)) := by
  induction text generalizing n codes k with
  | nil => simp [code128WeightedSum]
  | cons c cs ih =>
      simp only [List.enumFrom, List.foldl_cons, encodeCode128BStep, List.map_cons,
        code128WeightedSum, ih]
      rw [Prod.mk.injEq]
      constructor
      · simp
      · omega

theorem encodeCode128B_eq (text : List Nat) :
    encodeCode128B text =
      START_CODE_B :: text.map code128SymbolValue ++
        [(START_CODE_B + code128WeightedSum 1 (text.map code128SymbolValue)) % 103,
         STOP_CODE] := by
  have henum : text.enum = List.enumFrom 0 text := rfl
  unfold encodeCode128B
  rw [henum, encodeCode128B_foldl]
  simp

theorem code128SymbolValue_le (c : Nat) : code128SymbolValue c ≤ 95 := by
  unfold code128SymbolValue
  split <;> omega

/-- C7: for every input string, encodeCode128B maps each character to the
symbol value charCode minus 32 with out-of-range characters coerced to the
space symbol (value 0), prefixes the start symbol, and appends a checksum
symbol equal to (startSymbolValue plus the sum of value at i times (i plus 1)
over the 1-indexed data symbols) modulo 103, followed by the stop symbol. -/
theorem C7_encodeCode128B_checksum_law (text : List Nat) :
    encodeCode128B text =
      START_CODE_B :: text.map code128SymbolValue ++
        [(START_CODE_B + code128WeightedSum 1 (text.map code128SymbolValue)) % 103,
         STOP_CODE] ∧
    (∀ c, 32 ≤ c → c ≤ 127 → code128SymbolValue c = c - 32) ∧
    (∀ c, c < 32 ∨ 127 < c → code128SymbolValue c = 0) := by
  refine ⟨encodeCode128B_eq text, ?_, ?_⟩
  · intro c h1 h2
    unfold code128SymbolValue
    split <;> omega
  · intro c h
    unfold code128SymbolValue
    split <;> omega

theorem C7_encodeCode128B_checksum_law_witness :
    encodeCode128B [53, 53, 86] =
      START_CODE_B :: [53, 53, 86].map code128SymbolValue ++
        [(START_CODE_B + code128WeightedSum 1 ([53, 53, 86].map code128SymbolValue)) % 103,
         STOP_CODE] ∧
    code128SymbolValue 65 = 33 ∧ code128SymbolValue 200 = 0 :=
  ⟨(C7_encodeCode128B_checksum_law [53, 53, 86]).1,
   (C7_encodeCode128B_checksum_law [53, 53, 86]).2.1 65 (by decide) (by decide),
   (C7_encodeCode128B_checksum_law [53, 53, 86]).2.2 200 (Or.inr (by decide))⟩

/-- C10: for every input string, the symbol sequence produced by
encodeCode128B has length len plus 3, begins with 104 (start code B), ends
with 106 (stop code), and every element is a valid index into the 107-entry
pattern table, so the pattern lookup in renderBarcode never misses. -/
theorem C10_encodeCode128B_safe (text : List Nat) :
    (encodeCode128B text).length = text.length + 3 ∧
    (encodeCode128B text).head? = some START_CODE_B ∧
    (encodeCode128B text).getLast? = some STOP_CODE ∧
    CODE128_PATTERNS.length = 107 ∧
    (∀ code ∈ encodeCode128B text, code < CODE128_PATTERNS.length) := by
  have hlen : CODE128_PATTERNS.length = 107 := by rfl
  rw [encodeCode128B_eq]
  refine ⟨by simp, by simp, ?_, hlen, ?_⟩
  · rw [show (START_CODE_B :: text.map code128SymbolValue ++
        [(START_CODE_B + code128WeightedSum 1 (text.map code128SymbolValue)) % 103,
         STOP_CODE]) =
      (START_CODE_B :: text.map code128SymbolValue ++
        [(START_CODE_B + code128WeightedSum 1 (text.map code128SymbolValue)) % 103]) ++
      [STOP_CODE] by simp]
    exact List.getLast?_concat _
  · intro code hmem
    rw [hlen]
    rcases List.mem_cons.mp hmem with h | hmem2
    · rw [h]; norm_num [START_CODE_B]
    rcases List.mem_append.mp hmem2 with hmem3 | hmem3
    · obtain ⟨c, _, hc⟩ := List.mem_map.mp hmem3
      have := code128SymbolValue_le c
      omega
    rcases List.mem_cons.mp hmem3 with h | hmem4
    · have : (START_CODE_B + code128WeightedSum 1 (text.map code128SymbolValue)) % 103 < 103 :=
        Nat.mod_lt _ (by norm_num)
      omega
    rcases List.mem_cons.mp hmem4 with h | hmem5
    · rw [h]; norm_num [STOP_CODE]
    · simp at hmem5

theorem C10_encodeCode128B_safe_witness :
    (encodeCode128B [53]).length = [53].length + 3 ∧
    104 < CODE128_PATTERNS.length :=
  ⟨(C10_encodeCode128B_safe [53]).1,
   (C10_encodeCode128B_safe [53]).2.2.2.2 104 (by decide)⟩

/-! ## Label layout engine (labelLayoutModel.ts) -/

/-- Embedding of the LabelConfig record type from backend/main.mo; every
numeric field is a Nat in the canister interface, and the frontend converts
each to a JavaScript number before use. -/
structure LabelConfig where
  width : Nat
  height : Nat
  margin : Nat
  barcodeType : String
  customText : String
  textSize : Nat
  font : String
  barcodePositionX : Nat
  barcodePositionY : Nat
  textPositionX : Nat
  textPositionY : Nat
  barcodeHeight : Nat
  barcodeWidthScale : Nat
  horizontalSpacing : Nat
  centerContents : Bool
deriving DecidableEq

/-- LABEL_DOTS.WIDTH from labelLayoutModel.ts: 384 dots (48 mm at 203 dpi,
rounded, as documented in the source). -/
def LABEL_DOTS_WIDTH : Int := 384

/-- LABEL_DOTS.HEIGHT from labelLayoutModel.ts: 240 dots (30 mm at 203 dpi,
rounded, as documented in the source). -/
def LABEL_DOTS_HEIGHT : Int := 240

/-- DEFAULT_LAYOUT.TITLE_Y from labelLayoutModel.ts. -/
def DEFAULT_LAYOUT_TITLE_Y : Int := 5

/-- DEFAULT_LAYOUT.TITLE_FONT_SIZE from labelLayoutModel.ts. -/
def DEFAULT_LAYOUT_TITLE_FONT_SIZE : Int := 16

/-- DEFAULT_LAYOUT.LEFT_MARGIN from labelLayoutModel.ts. -/
def DEFAULT_LAYOUT_LEFT_MARGIN : Int := 30

/-- DEFAULT_LAYOUT.TOP_MARGIN from labelLayoutModel.ts. -/
def DEFAULT_LAYOUT_TOP_MARGIN : Int := 25

/-- DEFAULT_LAYOUT.BARCODE_HEIGHT from labelLayoutModel.ts. -/
def DEFAULT_LAYOUT_BARCODE_HEIGHT : Int := 60

/-- DEFAULT_LAYOUT.NARROW_BAR from labelLayoutModel.ts. -/
def DEFAULT_LAYOUT_NARROW_BAR : Int := 1

/-- DEFAULT_LAYOUT.TEXT_GAP from labelLayoutModel.ts. -/
def DEFAULT_LAYOUT_TEXT_GAP : Int := 8

/-- DEFAULT_LAYOUT.BLOCK_SPACING from labelLayoutModel.ts. -/
def DEFAULT_LAYOUT_BLOCK_SPACING : Int := 95

/-- DEFAULT_LAYOUT.TEXT_FONT_SIZE from labelLayoutModel.ts. -/
def DEFAULT_LAYOUT_TEXT_FONT_SIZE : Int := 8

/-- MIN_SAFE.TEXT_GAP from labelLayoutModel.ts. -/
def MIN_SAFE_TEXT_GAP : Int := 6

/-- MIN_SAFE.BLOCK_SPACING from labelLayoutModel.ts. -/
def MIN_SAFE_BLOCK_SPACING : Int := 70

/-- Embedding of estimateCode128Width from labelLayoutModel.ts. -/
def estimateCode128Width (text : String) (moduleWidth : Int) : Int :=
  (11 + (text.length : Int) * 11 + 11 + 13) * moduleWidth

/-- Embedding of calculateCenteredBarcodeX from labelLayoutModel.ts;
Int.fdiv models the floor division performed by Math.floor of a
JavaScript division by 2. -/
def calculateCenteredBarcodeX (text : String) (moduleWidth : Int) : Int :=
  max DEFAULT_LAYOUT_LEFT_MARGIN
    (Int.fdiv (LABEL_DOTS_WIDTH - estimateCode128Width text moduleWidth) 2)

/-- Embedding of calculateCenteredTextX from labelLayoutModel.ts. -/
def calculateCenteredTextX (text : String) (fontSize : Int) : Int :=
  max DEFAULT_LAYOUT_LEFT_MARGIN
    (Int.fdiv (LABEL_DOTS_WIDTH - (text.length : Int) * fontSize) 2)

/-- Embedding of calculateCenteredTitleX from labelLayoutModel.ts. -/
def calculateCenteredTitleX (title : String) : Int :=
  max 10 (Int.fdiv (LABEL_DOTS_WIDTH - (title.length : Int) * DEFAULT_LAYOUT_TITLE_FONT_SIZE) 2)

/-- Embedding of the DualSerialLayout interface from labelLayoutModel.ts. -/
structure DualSerialLayout where
  labelWidth : Int
  labelHeight : Int
  titleX : Int
  titleY : Int
  barcode1X : Int
  barcode1Y : Int
  text1X : Int
  text1Y : Int
  barcode2X : Int
  barcode2Y : Int
  text2X : Int
  text2Y : Int
  barcodeHeight : Int
  moduleWidth : Int
  textSize : Int
  effectiveTextGap : Int
  effectiveBlockSpacing : Int
deriving DecidableEq

/-- Embedding of computeDualSerialLayout from labelLayoutModel.ts, translated
line by line. A JavaScript truthiness test on the optional config argument is
an Option match; the conditional overwrite of requestedTextGap inside the
if-config block becomes the inner conditional of the some branch. -/
def computeDualSerialLayout (serial1 serial2 title : String)
    (config : Option LabelConfig) : DualSerialLayout :=
  let barcodeHeight : Int := match config with
    | some c => (c.barcodeHeight : Int)
    | none => DEFAULT_LAYOUT_BARCODE_HEIGHT
  let moduleWidth : Int := match config with
    | some c => (c.barcodeWidthScale : Int)
    | none => DEFAULT_LAYOUT_NARROW_BAR
  let centerContents : Bool := match config with
    | some c => c.centerContents
    | none => true
  let textSize : Int := match config with
    | some c =>
        if (c.textSize : Int) > 0 then (c.textSize : Int) else DEFAULT_LAYOUT_TEXT_FONT_SIZE
    | none => DEFAULT_LAYOUT_TEXT_FONT_SIZE
  let requestedTextGap : Int := match config with
    | some c =>
        let configTextGap : Int :=
          (c.textPositionY : Int) - (c.barcodePositionY : Int) - barcodeHeight
        if configTextGap > 0 then configTextGap else DEFAULT_LAYOUT_TEXT_GAP
    | none => DEFAULT_LAYOUT_TEXT_GAP
  let requestedBlockSpacing : Int := match config with
    | some c => (c.horizontalSpacing : Int)
    | none => DEFAULT_LAYOUT_BLOCK_SPACING
  let effectiveTextGap : Int := max MIN_SAFE_TEXT_GAP requestedTextGap
  let effectiveBlockSpacing : Int := max MIN_SAFE_BLOCK_SPACING requestedBlockSpacing
  let titleX := calculateCenteredTitleX title
  let titleY := DEFAULT_LAYOUT_TITLE_Y
  let barcode1Y := DEFAULT_LAYOUT_TOP_MARGIN
  let barcode1X := if centerContents then calculateCenteredBarcodeX serial1 moduleWidth
    else match config with
      | some c => (c.barcodePositionX : Int)
      | none => DEFAULT_LAYOUT_LEFT_MARGIN
  let text1Y := barcode1Y + barcodeHeight + effectiveTextGap
  let text1X := if centerContents then calculateCenteredTextX serial1 textSize
    else match config with
      | some c => (c.textPositionX : Int)
      | none => DEFAULT_LAYOUT_LEFT_MARGIN
  let barcode2Y := barcode1Y + effectiveBlockSpacing
  let barcode2X := if centerContents then calculateCenteredBarcodeX serial2 moduleWidth
    else match config with
      | some c => (c.barcodePositionX : Int)
      | none => DEFAULT_LAYOUT_LEFT_MARGIN
  let text2Y := barcode2Y + barcodeHeight + effectiveTextGap
  let text2X := if centerContents then calculateCenteredTextX serial2 textSize
    else match config with
      | some c => (c.textPositionX : Int)
      | none => DEFAULT_LAYOUT_LEFT_MARGIN
  { labelWidth := LABEL_DOTS_WIDTH
    labelHeight := LABEL_DOTS_HEIGHT
    titleX := titleX
    titleY := titleY
    barcode1X := barcode1X
    barcode1Y := barcode1Y
    text1X := text1X
    text1Y := text1Y
    barcode2X := barcode2X
    barcode2Y := barcode2Y
    text2X := text2X
    text2Y := text2Y
    barcodeHeight := barcodeHeight
    moduleWidth := moduleWidth
    textSize := textSize
    effectiveTextGap := effectiveTextGap
    effectiveBlockSpacing := effectiveBlockSpacing }

theorem computeDualSerialLayout_text1Y (serial1 serial2 title : String)
    (config : Option LabelConfig) :
    (computeDualSerialLayout serial1 serial2 title config).text1Y =
      (computeDualSerialLayout serial1 serial2 title config).barcode1Y +
      (computeDualSerialLayout serial1 serial2 title config).barcodeHeight +
      (computeDualSerialLayout serial1 serial2 title config).effectiveTextGap := rfl

theorem computeDualSerialLayout_barcode2Y (serial1 serial2 title : String)
    (config : Option LabelConfig) :
    (computeDualSerialLayout serial1 serial2 title config).barcode2Y =
      (computeDualSerialLayout serial1 serial2 title config).barcode1Y +
      (computeDualSerialLayout serial1 serial2 title config).effectiveBlockSpacing := rfl

theorem computeDualSerialLayout_text2Y (serial1 serial2 title : String)
    (config : Option LabelConfig) :
    (computeDualSerialLayout serial1 serial2 title config).text2Y =
      (computeDualSerialLayout serial1 serial2 title config).barcode2Y +
      (computeDualSerialLayout serial1 serial2 title config).barcodeHeight +
      (computeDualSerialLayout serial1 serial2 title config).effectiveTextGap := rfl

theorem computeDualSerialLayout_effectiveTextGap_ge (serial1 serial2 title : String)
    (config : Option LabelConfig) :
    MIN_SAFE_TEXT_GAP ≤ (computeDualSerialLayout serial1 serial2 title config).effectiveTextGap := by
  cases config <;> exact le_max_left _ _

theorem computeDualSerialLayout_effectiveBlockSpacing_ge (serial1 serial2 title : String)
    (config : Option LabelConfig) :
    MIN_SAFE_BLOCK_SPACING ≤
      (computeDualSerialLayout serial1 serial2 title config).effectiveBlockSpacing := by
  cases config <;> exact le_max_left _ _

/-- C5: for all serials, title, and configuration (including absent, zero, or
adversarially large or small numeric fields), the layout returned by
computeDualSerialLayout keeps the gap between each barcode bottom and its
text at least MIN_SAFE.TEXT_GAP and the gap between the two barcode tops at
least MIN_SAFE.BLOCK_SPACING. -/
theorem C5_layout_guardrails (serial1 serial2 title : String) (config : Option LabelConfig) :
    (computeDualSerialLayout serial1 serial2 title config).text1Y -
      ((computeDualSerialLayout serial1 serial2 title config).barcode1Y +
       (computeDualSerialLayout serial1 serial2 title config).barcodeHeight) ≥
      MIN_SAFE_TEXT_GAP ∧
    (computeDualSerialLayout serial1 serial2 title config).barcode2Y -
      (computeDualSerialLayout serial1 serial2 title config).barcode1Y ≥
      MIN_SAFE_BLOCK_SPACING ∧
    (computeDualSerialLayout serial1 serial2 title config).text2Y -
      ((computeDualSerialLayout serial1 serial2 title config).barcode2Y +
       (computeDualSerialLayout serial1 serial2 title config).barcodeHeight) ≥
      MIN_SAFE_TEXT_GAP := by
  have h1 := computeDualSerialLayout_text1Y serial1 serial2 title config
  have h2 := computeDualSerialLayout_barcode2Y serial1 serial2 title config
  have h3 := computeDualSerialLayout_text2Y serial1 serial2 title config
  have h4 := computeDualSerialLayout_effectiveTextGap_ge serial1 serial2 title config
  have h5 := computeDualSerialLayout_effectiveBlockSpacing_ge serial1 serial2 title config
  refine ⟨?_, ?_, ?_⟩ <;> omega

/-- Concrete configuration with zero barcode height and zero module-width
scale, used to show that zero config fields reach the layout unchanged. -/
def cfgZeroFields : LabelConfig :=
  { width := 384, height := 240, margin := 0, barcodeType := "128"
    customText := "", textSize := 0, font := "4"
    barcodePositionX := 30, barcodePositionY := 25
    textPositionX := 30, textPositionY := 93
    barcodeHeight := 0, barcodeWidthScale := 0, horizontalSpacing := 95
    centerContents := true }

/-- C6 counterexample: the claim states that barcode height and module-width
scale are taken from the configuration only when positive, so a zero config
field never reaches the layout; but with a configuration whose barcodeHeight
and barcodeWidthScale are zero, computeDualSerialLayout returns barcode
height 0 and module width 0 rather than the defaults 60 and 1. -/
theorem C6_counterexample :
    (computeDualSerialLayout "55V0001" "55V0002" "Dual Band" (some cfgZeroFields)).barcodeHeight
      = 0 ∧
    (computeDualSerialLayout "55V0001" "55V0002" "Dual Band" (some cfgZeroFields)).moduleWidth
      = 0 ∧
    DEFAULT_LAYOUT_BARCODE_HEIGHT = 60 ∧ DEFAULT_LAYOUT_NARROW_BAR = 1 :=
  ⟨rfl, rfl, rfl, rfl⟩

/-- C6 amended: only the text size is guarded by a positivity test: it is
taken from the configuration exactly when the configuration is present and
the field is positive, otherwise defaulted. Barcode height and module-width
scale are taken from the configuration whenever it is present, regardless of
value (zero reaches the layout), and are defaulted only when the
configuration is absent. -/
theorem C6_amended_config_extraction (s1 s2 t : String) (c : LabelConfig) :
    ((computeDualSerialLayout s1 s2 t (some c)).barcodeHeight = (c.barcodeHeight : Int)) ∧
    ((computeDualSerialLayout s1 s2 t (some c)).moduleWidth = (c.barcodeWidthScale : Int)) ∧
    ((0 : Int) < (c.textSize : Int) →
      (computeDualSerialLayout s1 s2 t (some c)).textSize = (c.textSize : Int)) ∧
    (((c.textSize : Int)) ≤ 0 →
      (computeDualSerialLayout s1 s2 t (some c)).textSize = DEFAULT_LAYOUT_TEXT_FONT_SIZE) ∧
    ((computeDualSerialLayout s1 s2 t none).barcodeHeight = DEFAULT_LAYOUT_BARCODE_HEIGHT) ∧
    ((computeDualSerialLayout s1 s2 t none).moduleWidth = DEFAULT_LAYOUT_NARROW_BAR) ∧
    ((computeDualSerialLayout s1 s2 t none).textSize = DEFAULT_LAYOUT_TEXT_FONT_SIZE) := by
  refine ⟨rfl, rfl, ?_, ?_, rfl, rfl, rfl⟩
  · intro h
    show (if (c.textSize : Int) > 0 then (c.textSize : Int)
          else DEFAULT_LAYOUT_TEXT_FONT_SIZE) = (c.textSize : Int)
    rw [if_pos h]
  · intro h
    show (if (c.textSize : Int) > 0 then (c.textSize : Int)
          else DEFAULT_LAYOUT_TEXT_FONT_SIZE) = DEFAULT_LAYOUT_TEXT_FONT_SIZE
    rw [if_neg (by omega)]

theorem C6_amended_config_extraction_witness :
    (computeDualSerialLayout "55V0001" "55V0002" "Dual Band" (some cfgZeroFields)).textSize
      = DEFAULT_LAYOUT_TEXT_FONT_SIZE ∧
    (computeDualSerialLayout "55V0001" "55V0002" "Dual Band"
      (some cfgZeroFields)).barcodeHeight = ((cfgZeroFields.barcodeHeight : Int)) :=
  ⟨(C6_amended_config_extraction "55V0001" "55V0002" "Dual Band" cfgZeroFields).2.2.2.1
      (by decide),
   (C6_amended_config_extraction "55V0001" "55V0002" "Dual Band" cfgZeroFields).1⟩

/-! ## CPCL protocol serializer (cpclTemplates.ts) -/

/-- LABEL_LAYOUT.WIDTH from cpclTemplates.ts. -/
def LABEL_LAYOUT_WIDTH : Int := 384

/-- LABEL_LAYOUT.HEIGHT from cpclTemplates.ts. -/
def LABEL_LAYOUT_HEIGHT : Int := 240

/-- LABEL_LAYOUT.LEFT_MARGIN from cpclTemplates.ts. -/
def LABEL_LAYOUT_LEFT_MARGIN : Int := 30

/-- LABEL_LAYOUT.TOP_MARGIN from cpclTemplates.ts. -/
def LABEL_LAYOUT_TOP_MARGIN : Int := 25

/-- LABEL_LAYOUT.BARCODE_SPACING from cpclTemplates.ts. -/
def LABEL_LAYOUT_BARCODE_SPACING : Int := 95

/-- LABEL_LAYOUT.TEXT_GAP from cpclTemplates.ts. The value 6 differs from
DEFAULT_LAYOUT.TEXT_GAP in labelLayoutModel.ts, which is 8. -/
def LABEL_LAYOUT_TEXT_GAP : Int := 6

/-- LABEL_LAYOUT.BARCODE_HEIGHT from cpclTemplates.ts. -/
def LABEL_LAYOUT_BARCODE_HEIGHT : Int := 60

/-- LABEL_LAYOUT.NARROW_BAR from cpclTemplates.ts. -/
def LABEL_LAYOUT_NARROW_BAR : Int := 1

/-- LABEL_LAYOUT.TEXT_FONT from cpclTemplates.ts. -/
def LABEL_LAYOUT_TEXT_FONT : Int := 4

/-- LABEL_LAYOUT.TEXT_SIZE from cpclTemplates.ts. -/
def LABEL_LAYOUT_TEXT_SIZE : Int := 0

/-- LABEL_LAYOUT.TITLE_FONT from cpclTemplates.ts. -/
def LABEL_LAYOUT_TITLE_FONT : Int := 4

/-- LABEL_LAYOUT.TITLE_SIZE from cpclTemplates.ts. -/
def LABEL_LAYOUT_TITLE_SIZE : Int := 1

/-- Embedding of the CpclLabelOptions interface from cpclTemplates.ts. The
extra config field models the untyped config key that performPrint in
ScanPrint.tsx passes in its options object literal; no code in
cpclTemplates.ts reads it. -/
structure CpclLabelOptions where
  width : Option Int
  height : Option Int
  quantity : Option Int
  barcodeHeight : Option Int
  barcodeWidthScale : Option Int
  centerContents : Option Bool
  textGap : Option Int
  blockSpacing : Option Int
  config : Option LabelConfig

/-- JavaScript or-default on an optional numeric field, as in
options.width || LABEL_LAYOUT.WIDTH: both an absent field and a zero value
fall back to the default, because the or operator treats 0 as falsy. -/
def jsOrDefault (x : Option Int) (d : Int) : Int :=
  match x with
  | some v => if v = 0 then d else v
  | none => d

/-- Embedding of the private estimateCode128Width copy in cpclTemplates.ts. -/
def cpclEstimateCode128Width (text : String) (moduleWidth : Int) : Int :=
  (11 + (text.length : Int) * 11 + 11 + 13) * moduleWidth

/-- Embedding of the private calculateCenteredBarcodeX copy in
cpclTemplates.ts (this copy takes the label width as a parameter). -/
def cpclCalculateCenteredBarcodeX (text : String) (moduleWidth labelWidth : Int) : Int :=
  max LABEL_LAYOUT_LEFT_MARGIN
    (Int.fdiv (labelWidth - cpclEstimateCode128Width text moduleWidth) 2)

/-- Embedding of the private calculateCenteredTextX copy in cpclTemplates.ts
(fixed 8 dots per character). -/
def cpclCalculateCenteredTextX (text : String) (labelWidth : Int) : Int :=
  max LABEL_LAYOUT_LEFT_MARGIN (Int.fdiv (labelWidth - (text.length : Int) * 8) 2)

/-- All numeric values computed inside generateDualSerialCpcl before string
interpolation. -/
structure CpclGeometry where
  width : Int
  height : Int
  quantity : Int
  barcodeHeight : Int
  moduleWidth : Int
  textGap : Int
  blockSpacing : Int
  titleX : Int
  titleY : Int
  barcode1X : Int
  barcode1Y : Int
  text1X : Int
  text1Y : Int
  barcode2X : Int
  barcode2Y : Int
  text2X : Int
  text2Y : Int
deriving DecidableEq

/-- The local constants of generateDualSerialCpcl in cpclTemplates.ts,
translated line by line; the serialized command text interpolates exactly
these values. -/
def generateDualSerialCpclGeometry (serial1 serial2 title : String)
    (options : CpclLabelOptions) : CpclGeometry :=
  let width := jsOrDefault options.width LABEL_LAYOUT_WIDTH
  let height := jsOrDefault options.height LABEL_LAYOUT_HEIGHT
  let quantity := jsOrDefault options.quantity 1
  let barcodeHeight := jsOrDefault options.barcodeHeight LABEL_LAYOUT_BARCODE_HEIGHT
  let moduleWidth := jsOrDefault options.barcodeWidthScale LABEL_LAYOUT_NARROW_BAR
  let textGap := options.textGap.getD LABEL_LAYOUT_TEXT_GAP
  let blockSpacing := options.blockSpacing.getD LABEL_LAYOUT_BARCODE_SPACING
  let titleY : Int := 5
  let barcode1Y := LABEL_LAYOUT_TOP_MARGIN
  let text1Y := barcode1Y + barcodeHeight + textGap
  let barcode2Y := barcode1Y + blockSpacing
  let text2Y := barcode2Y + barcodeHeight + textGap
  let titleWidth := (title.length : Int) * 16
  let titleX := max 10 (Int.fdiv (width - titleWidth) 2)
  let barcode1X := cpclCalculateCenteredBarcodeX serial1 moduleWidth width
  let barcode2X := cpclCalculateCenteredBarcodeX serial2 moduleWidth width
  let text1X := cpclCalculateCenteredTextX serial1 width
  let text2X := cpclCalculateCenteredTextX serial2 width
  { width := width, height := height, quantity := quantity
    barcodeHeight := barcodeHeight, moduleWidth := moduleWidth
    textGap := textGap, blockSpacing := blockSpacing
    titleX := titleX, titleY := titleY
    barcode1X := barcode1X, barcode1Y := barcode1Y
    text1X := text1X, text1Y := text1Y
    barcode2X := barcode2X, barcode2Y := barcode2Y
    text2X := text2X, text2Y := text2Y }

/-- Embedding of generateDualSerialCpcl from cpclTemplates.ts: the command
lines interpolate the geometry values and are joined with CR LF. -/
def generateDualSerialCpcl (serial1 serial2 title : String)
    (options : CpclLabelOptions) : String :=
  let g := generateDualSerialCpclGeometry serial1 serial2 title options
  String.intercalate "\r\n"
    ["! 0 200 200 " ++ toString g.height ++ " " ++ toString g.quantity,
     "PAGE-WIDTH " ++ toString g.width,
     "TEXT " ++ toString LABEL_LAYOUT_TITLE_FONT ++ " " ++ toString LABEL_LAYOUT_TITLE_SIZE
       ++ " " ++ toString g.titleX ++ " " ++ toString g.titleY ++ " " ++ title,
     "BARCODE 128 " ++ toString g.moduleWidth ++ " " ++ toString g.moduleWidth ++ " "
       ++ toString g.barcodeHeight ++ " " ++ toString g.barcode1X ++ " "
       ++ toString g.barcode1Y ++ " " ++ serial1,
     "TEXT " ++ toString LABEL_LAYOUT_TEXT_FONT ++ " " ++ toString LABEL_LAYOUT_TEXT_SIZE
       ++ " " ++ toString g.text1X ++ " " ++ toString g.text1Y ++ " " ++ serial1,
     "BARCODE 128 " ++ toString g.moduleWidth ++ " " ++ toString g.moduleWidth ++ " "
       ++ toString g.barcodeHeight ++ " " ++ toString g.barcode2X ++ " "
       ++ toString g.barcode2Y ++ " " ++ serial2,
     "TEXT " ++ toString LABEL_LAYOUT_TEXT_FONT ++ " " ++ toString LABEL_LAYOUT_TEXT_SIZE
       ++ " " ++ toString g.text2X ++ " " ++ toString g.text2Y ++ " " ++ serial2,
     "PRINT",
     ""]

/-- Options object built by performPrint in ScanPrint.tsx when it calls
generateDualSerialCpcl: an object literal holding only a config key (the
stored configuration or null); every field of CpclLabelOptions is absent. -/
def performPrintOptions (storedConfig : Option LabelConfig) : CpclLabelOptions :=
  { width := none, height := none, quantity := none, barcodeHeight := none
    barcodeWidthScale := none, centerContents := none, textGap := none
    blockSpacing := none, config := storedConfig }

set_option maxRecDepth 10000 in
/-- C1 (code-bug evidence): at the failing input (serials 55V0001 and
55V0002, title Dual Band, no stored configuration, the options object that
performPrint passes), the serialized text line Y coordinates are 91 and 186,
while the Layout Engine returns text1Y 93 and text2Y 188 for the same
inputs: the serializer recomputes geometry from its own constants (default
text gap 6) instead of copying the Layout (default text gap 8), so the
coordinates in the protocol text do not equal the Layout fields. -/
theorem C1_serializer_not_copying_layout :
    (generateDualSerialCpclGeometry "55V0001" "55V0002" "Dual Band"
        (performPrintOptions none)).text1Y = 91 ∧
    (computeDualSerialLayout "55V0001" "55V0002" "Dual Band" none).text1Y = 93 ∧
    (generateDualSerialCpclGeometry "55V0001" "55V0002" "Dual Band"
        (performPrintOptions none)).text2Y = 186 ∧
    (computeDualSerialLayout "55V0001" "55V0002" "Dual Band" none).text2Y = 188 ∧
    generateDualSerialCpcl "55V0001" "55V0002" "Dual Band" (performPrintOptions none) =
      "! 0 200 200 240 1\r\nPAGE-WIDTH 384\r\nTEXT 4 1 120 5 Dual Band\r\n" ++
      "BARCODE 128 1 1 60 136 25 55V0001\r\nTEXT 4 0 164 91 55V0001\r\n" ++
      "BARCODE 128 1 1 60 136 120 55V0002\r\nTEXT 4 0 164 186 55V0002\r\nPRINT\r\n" := by
  refine ⟨by decide, by decide, by decide, by decide, by decide⟩

set_option maxRecDepth 10000 in
/-- C9: the protocol text produced on the print path is independent of the
persisted label configuration: performPrint passes the stored configuration
only under a config key that generateDualSerialCpcl never reads, so for a
fixed serial pair and title any two configuration snapshots yield identical
output, equal to the output built entirely from the built-in defaults. -/
theorem C9_print_output_independent_of_config (serial1 serial2 title : String)
    (config1 config2 : Option LabelConfig) :
    generateDualSerialCpcl serial1 serial2 title (performPrintOptions config1) =
      generateDualSerialCpcl serial1 serial2 title (performPrintOptions config2) ∧
    generateDualSerialCpcl serial1 serial2 title (performPrintOptions config1) =
      generateDualSerialCpcl serial1 serial2 title (performPrintOptions none) := by
  constructor <;> rfl

/-! ## Scan workflow (ScanPrint.tsx and scannerOnlyInput.ts) -/

/-- Model of the JavaScript String.trim operation: drop leading and trailing
whitespace characters (space, tab, carriage return, line feed cover every
character the scan pipeline can produce). -/
def jsTrim (s : String) : String :=
  String.mk (((s.data.dropWhile Char.isWhitespace).reverse.dropWhile
    Char.isWhitespace).reverse)

/-- Embedding of normalizeScannedValue from scannerOnlyInput.ts: remove
carriage return, line feed and tab characters, then trim surrounding
whitespace. -/
def normalizeScannedValue (s : String) : String :=
  jsTrim (String.mk (s.data.filter
    (fun ch => !(ch == Char.ofNat 13 || ch == Char.ofNat 10 || ch == Char.ofNat 9))))

/-- Outcome of the awaited remote validateBarcode canister call inside
validateSerial: the backend returns a verdict, or the call rejects with an
error. -/
inductive RemoteCheck where
  | verdict (isValid : Bool)
  | failure
deriving DecidableEq

/-- Result record of validateSerial in ScanPrint.tsx. -/
structure SerialValidation where
  valid : Bool
  error : Option String
deriving DecidableEq

/-- Embedding of validateSerial from ScanPrint.tsx: empty check, then
duplicate check against the accumulated scannedSerials list (read through a
ref), then the awaited remote prefix check, whose resolved outcome is passed
in. The catch branch of the source logs a console warning and falls through
to the final return, so a rejected remote call still yields a valid result. -/
def validateSerial (scannedSerials : List String) (serial : String)
    (remote : RemoteCheck) : SerialValidation :=
  if jsTrim (normalizeScannedValue serial) = "" then
    { valid := false, error := some "Serial number cannot be empty" }
  else if normalizeScannedValue serial ∈ scannedSerials then
    { valid := false, error := some "Duplicate serial number detected" }
  else
    match remote with
    | RemoteCheck.verdict false => { valid := false, error := some "Invalid barcode prefix" }
    | RemoteCheck.verdict true => { valid := true, error := none }
    | RemoteCheck.failure => { valid := true, error := none }

/-- Visual validation state of a scan input field in ScanPrint.tsx. -/
inductive FieldState where
  | neutral
  | valid
  | invalid
deriving DecidableEq

/-- Which scan field is active in ScanPrint.tsx. -/
inductive ActiveField where
  | first
  | second
deriving DecidableEq

/-- The per-session mutable fields of the ScanPrint component that the scan
workflow reads and writes (React state plus the refs kept in sync with it). -/
structure ScanState where
  firstSerial : String
  secondSerial : String
  firstSerialRef : String
  scannedSerials : List String
  blockingError : String
  dualLabels : Nat
  firstState : FieldState
  secondState : FieldState
  activeField : ActiveField
deriving DecidableEq

/-- Observable external calls made by the scan workflow, in program order. -/
inductive Effect where
  | transportSend (cpcl : String)
  | printRecordCall (serialNumber labelType printer : String)
  | counterIncrementCall
  | errorLog (message : String)
  | toastError (title : String)
  | toastSuccess (title : String)
  | toastWarning (title : String)
deriving DecidableEq

/-- Embedding of handleFirstSerialSubmit from ScanPrint.tsx: validate the
raw value; on failure mark the field invalid, log best-effort, and set the
blocking error, leaving the scanned list untouched; on success record the
serial in the scanned list, clear the blocking error, and make the second
field active. -/
def handleFirstSerialSubmit (st : ScanState) (serial : String)
    (remote : RemoteCheck) : ScanState × List Effect :=
  let normalized := normalizeScannedValue serial
  let validation := validateSerial st.scannedSerials serial remote
  if validation.valid = false then
    ({ st with firstState := FieldState.invalid,
               blockingError := validation.error.getD "Invalid barcode" },
     [Effect.toastError "Invalid Barcode",
      Effect.errorLog (validation.error.getD "Invalid barcode")])
  else
    ({ st with firstSerial := normalized, firstSerialRef := normalized,
               firstState := FieldState.valid,
               scannedSerials := st.scannedSerials ++ [normalized],
               blockingError := "",
               activeField := ActiveField.second },
     [Effect.toastSuccess "First serial scanned"])

/-- Selected output protocol from PrintProtocolContext. -/
inductive PrintProtocol where
  | CPCL
  | ZPL
  | ESCPOS
deriving DecidableEq

/-- Resolved outcome of the awaited title-registry lookup in performPrint. -/
inductive TitleFetch where
  | fetched (title : String)
  | nullResult
  | error
deriving DecidableEq

/-- Title resolution logic of performPrint: start from the Dual Band
default, and overwrite it only when the lookup resolves with a truthy
(non-empty) value; a null result or a rejected call keeps the default. -/
def resolveTitle (tf : TitleFetch) : String :=
  match tf with
  | TitleFetch.fetched t => if t.isEmpty then "Dual Band" else t
  | TitleFetch.nullResult => "Dual Band"
  | TitleFetch.error => "Dual Band"

/-- Resolved outcome of the awaited USB transport send. -/
inductive TransportResult where
  | success
  | failure (message : String)
deriving DecidableEq

/-- Resolved outcome of the backend recording step: both calls succeed, the
print-record call rejects (so the counter call never starts), or the record
call succeeds and the counter-increment call rejects. -/
inductive BackendResult where
  | success
  | recordFailed (message : String)
  | incrementFailed (message : String)
deriving DecidableEq

/-- The backend-recording block of performPrint (step 2, entered only when
the USB step succeeded or was not applicable): attempts the print-record and
counter-increment calls, degrades a failure to a warning without setting a
blocking error, and always resets the two scan slots afterwards. -/
def performPrintRecordPhase (st : ScanState) (ns1 ns2 title : String)
    (usbConnected : Bool) (backendPrinterName : Option String)
    (backend : BackendResult) (pre : List Effect) : ScanState × List Effect :=
  let printerName := if usbConnected then "USB Printer" else backendPrinterName.getD "Unknown"
  match backend with
  | BackendResult.success =>
      ({ st with firstSerial := "", secondSerial := "", firstSerialRef := ""
                 firstState := FieldState.neutral, secondState := FieldState.neutral
                 activeField := ActiveField.first
                 dualLabels := st.dualLabels + 1, blockingError := "" },
       pre ++ [Effect.printRecordCall (ns1 ++ "," ++ ns2) title printerName,
               Effect.counterIncrementCall,
               Effect.toastSuccess "Label printed successfully!"])
  | BackendResult.recordFailed msg =>
      ({ st with firstSerial := "", secondSerial := "", firstSerialRef := ""
                 firstState := FieldState.neutral, secondState := FieldState.neutral
                 activeField := ActiveField.first },
       pre ++ [Effect.printRecordCall (ns1 ++ "," ++ ns2) title printerName,
               Effect.toastWarning "Label printed",
               Effect.errorLog ("Backend recording failed: " ++ msg)])
  | BackendResult.incrementFailed msg =>
      ({ st with firstSerial := "", secondSerial := "", firstSerialRef := ""
                 firstState := FieldState.neutral, secondState := FieldState.neutral
                 activeField := ActiveField.first },
       pre ++ [Effect.printRecordCall (ns1 ++ "," ++ ns2) title printerName,
               Effect.counterIncrementCall,
               Effect.toastWarning "Label printed",
               Effect.errorLog ("Backend recording failed: " ++ msg)])

/-- Embedding of performPrint from ScanPrint.tsx. The resolved outcomes of
the awaited collaborator calls (title lookup, USB transport send, backend
recording) are passed in; the result is the updated session state together
with the ordered external calls made. The stored configuration list is read
with find, which yields the first stored configuration if any; the resulting
snapshot is passed to generateDualSerialCpcl under the config options key. -/
def performPrint (st : ScanState) (serial1 serial2 : String)
    (labelConfigs : List LabelConfig) (protocol : PrintProtocol)
    (usbConnected : Bool) (backendPrinterName : Option String)
    (titleFetch : TitleFetch) (transport : TransportResult)
    (backend : BackendResult) : ScanState × List Effect :=
  let normalizedSerial1 := normalizeScannedValue serial1
  let normalizedSerial2 := normalizeScannedValue serial2
  let title := resolveTitle titleFetch
  let defaultConfig := labelConfigs.head?
  if protocol = PrintProtocol.CPCL ∧ usbConnected = true then
    let cpclCommand := generateDualSerialCpcl normalizedSerial1 normalizedSerial2 title
        (performPrintOptions defaultConfig)
    match transport with
    | TransportResult.failure msg =>
        ({ st with blockingError := "USB print failed: " ++ msg },
         [Effect.transportSend cpclCommand,
          Effect.toastError "USB print failed",
          Effect.errorLog ("USB Print Error: " ++ msg)])
    | TransportResult.success =>
        performPrintRecordPhase st normalizedSerial1 normalizedSerial2 title usbConnected
          backendPrinterName backend [Effect.transportSend cpclCommand]
  else
    performPrintRecordPhase st normalizedSerial1 normalizedSerial2 title usbConnected
      backendPrinterName backend []

/-- C3 counterexample: the claim states that a remote prefix-check error
causes validation of the candidate to fail (fail-closed); but for the
candidate 55V123456 with an empty session duplicate list, a rejected remote
check yields a valid result with no error message: the catch branch treats a
remote-check error as an automatic pass. -/
theorem C3_counterexample :
    validateSerial [] "55V123456" RemoteCheck.failure =
      { valid := true, error := none } := by decide

/-- C3 amended: a remote prefix-check error is treated as an automatic pass
(fail-open): for any non-empty, non-duplicate candidate, validation with a
failed remote check returns valid with no error, exactly as a positive
verdict does, so a remote-check error is indistinguishable from a pass in
the result (the error is only logged as a console warning). -/
theorem C3_amended_remote_failure_fail_open (scanned : List String) (serial : String)
    (hne : jsTrim (normalizeScannedValue serial) ≠ "")
    (hdup : normalizeScannedValue serial ∉ scanned) :
    validateSerial scanned serial RemoteCheck.failure = { valid := true, error := none } ∧
    validateSerial scanned serial RemoteCheck.failure =
      validateSerial scanned serial (RemoteCheck.verdict true) := by
  constructor <;> simp [validateSerial, hne, hdup]

theorem C3_amended_remote_failure_fail_open_witness :
    validateSerial ["55V0001"] "55V123456" RemoteCheck.failure =
      { valid := true, error := none } :=
  (C3_amended_remote_failure_fail_open ["55V0001"] "55V123456"
    (by decide) (by decide)).1

/-- C8: assuming the session invariant that every accumulated scanned serial
is non-empty (which holds because only validated scans are recorded), a
candidate is rejected as a duplicate exactly when its normalized value is in
the accumulated scanned list, for every remote verdict alike (the duplicate
check precedes and is independent of the prefix check); a scan that fails
validation leaves the scanned list unchanged, and a valid scan appends its
normalized value. -/
theorem C8_duplicate_rejection (st : ScanState) (serial : String) (remote : RemoteCheck)
    (hinv : ∀ x ∈ st.scannedSerials, jsTrim x ≠ "") :
    (validateSerial st.scannedSerials serial remote =
        { valid := false, error := some "Duplicate serial number detected" } ↔
      normalizeScannedValue serial ∈ st.scannedSerials) ∧
    ((validateSerial st.scannedSerials serial remote).valid = false →
      (handleFirstSerialSubmit st serial remote).1.scannedSerials = st.scannedSerials) ∧
    ((validateSerial st.scannedSerials serial remote).valid = true →
      (handleFirstSerialSubmit st serial remote).1.scannedSerials =
        st.scannedSerials ++ [normalizeScannedValue serial]) := by
  refine ⟨?_, ?_, ?_⟩
  · unfold validateSerial
    split_ifs with h1 h2
    · constructor
      · intro h
        exact absurd h (by decide)
      · intro h
        exact absurd h1 (hinv _ h)
    · simp [h2]
    · constructor
      · intro h
        rcases remote with b | _
        · cases b <;> exact absurd h (by decide)
        · exact absurd h (by decide)
      · intro h
        exact absurd h h2
  · intro h
    simp [handleFirstSerialSubmit, h]
  · intro h
    simp [handleFirstSerialSubmit, h]

theorem C8_duplicate_rejection_witness :
    (validateSerial ["55V0001"] " 55V0001\t" (RemoteCheck.verdict false) =
      { valid := false, error := some "Duplicate serial number detected" }) ∧
    (handleFirstSerialSubmit
        { firstSerial := "", secondSerial := "", firstSerialRef := ""
          scannedSerials := ["55V0001"], blockingError := "", dualLabels := 0
          firstState := FieldState.neutral, secondState := FieldState.neutral
          activeField := ActiveField.first }
        " 55V0001\t" (RemoteCheck.verdict false)).1.scannedSerials = ["55V0001"] := by
  have hst := C8_duplicate_rejection
    { firstSerial := "", secondSerial := "", firstSerialRef := ""
      scannedSerials := ["55V0001"], blockingError := "", dualLabels := 0
      firstState := FieldState.neutral, secondState := FieldState.neutral
      activeField := ActiveField.first }
    " 55V0001\t" (RemoteCheck.verdict false) (by decide)
  exact ⟨hst.1.mpr (by decide), hst.2.1 (by decide)⟩

theorem handleFirstSerialSubmit_preserves_nonempty (st : ScanState) (serial : String)
    (remote : RemoteCheck) (hinv : ∀ x ∈ st.scannedSerials, jsTrim x ≠ "") :
    ∀ x ∈ (handleFirstSerialSubmit st serial remote).1.scannedSerials, jsTrim x ≠ "" := by
  intro x hx
  unfold handleFirstSerialSubmit at hx
  by_cases hv : (validateSerial st.scannedSerials serial remote).valid = false
  · rw [if_pos hv] at hx
    exact hinv x hx
  · rw [if_neg hv] at hx
    simp only [List.mem_append, List.mem_singleton] at hx
    rcases hx with hx | hx
    · exact hinv x hx
    · subst hx
      by_contra he
      unfold validateSerial at hv
      rw [if_pos he] at hv
      exact hv rfl

/-- C4: if the USB transport send fails during printing, the workflow keeps
both serials for retry: the session state is unchanged apart from the
blocking failure notice, the notice is a non-empty blocking error, and no
counter-increment call and no print-record call occurs. -/
theorem C4_transport_failure_preserves_state (st : ScanState) (serial1 serial2 : String)
    (labelConfigs : List LabelConfig) (backendPrinterName : Option String)
    (titleFetch : TitleFetch) (backend : BackendResult) (msg : String) :
    (performPrint st serial1 serial2 labelConfigs PrintProtocol.CPCL true backendPrinterName
        titleFetch (TransportResult.failure msg) backend).1 =
      { st with blockingError := "USB print failed: " ++ msg } ∧
    ("USB print failed: " ++ msg) ≠ "" ∧
    Effect.counterIncrementCall ∉
      (performPrint st serial1 serial2 labelConfigs PrintProtocol.CPCL true backendPrinterName
        titleFetch (TransportResult.failure msg) backend).2 ∧
    (∀ a b c, Effect.printRecordCall a b c ∉
      (performPrint st serial1 serial2 labelConfigs PrintProtocol.CPCL true backendPrinterName
        titleFetch (TransportResult.failure msg) backend).2) := by
  refine ⟨by simp [performPrint], ?_, by simp [performPrint], ?_⟩
  · intro h
    have hlen := congrArg String.length h
    simp [String.length_append] at hlen
    exact absurd hlen.1 (by decide)
  · intro a b c
    simp [performPrint]

/-- Concrete session state with both serials scanned and valid, used as
witness input. -/
def stBothValid : ScanState :=
  { firstSerial := "55V0001", secondSerial := "55V0002", firstSerialRef := "55V0001"
    scannedSerials := ["55V0001", "55V0002"], blockingError := "", dualLabels := 0
    firstState := FieldState.valid, secondState := FieldState.valid
    activeField := ActiveField.second }

theorem C4_transport_failure_preserves_state_witness :
    (performPrint stBothValid "55V0001" "55V0002" [] PrintProtocol.CPCL true none TitleFetch.error
        (TransportResult.failure "transfer error") BackendResult.success).1 =
      { stBothValid with blockingError := "USB print failed: " ++ "transfer error" } ∧
    Effect.counterIncrementCall ∉
      (performPrint stBothValid "55V0001" "55V0002" [] PrintProtocol.CPCL true none TitleFetch.error
        (TransportResult.failure "transfer error") BackendResult.success).2 :=
  ⟨(C4_transport_failure_preserves_state stBothValid "55V0001" "55V0002" [] none
      TitleFetch.error BackendResult.success "transfer error").1,
   (C4_transport_failure_preserves_state stBothValid "55V0001" "55V0002" [] none
      TitleFetch.error BackendResult.success "transfer error").2.2.1⟩

/-! ## Race model of handleSecondSerialSubmit (ScanPrint.tsx) -/

/-- Program counter of one in-flight invocation of handleSecondSerialSubmit,
split at its suspension points (awaited calls). -/
inductive SecondSubmitPhase where
  | entry
  | validating
  | printing
  | finished
deriving DecidableEq

/-- Shared mutable state read and written by concurrent invocations of
handleSecondSerialSubmit: the in-flight marker ref (autoPrintInProgressRef),
the accumulated scanned-serials collection, and the number of transport
sends performed so far. -/
structure RaceState where
  autoPrintInProgress : Bool
  scannedSerials : List String
  sends : Nat
deriving DecidableEq

/-- One atomic step of an invocation of handleSecondSerialSubmit on the raw
scan value, in the scenario of the claim: the remote check resolves with a
positive verdict and a printer is connected. Atomic sections are the maximal
synchronous runs of the source code. From entry: the in-flight guard check,
normalization, and the synchronous prefix of validateSerial (empty check and
duplicate check) all run before the first await, then the call suspends on
the remote check. On resumption: the validity and printer-connection checks,
the insertion of the serial into the scanned collection, and the late
assignment of the in-flight marker run synchronously, then performPrint is
entered and suspends. The final step performs the transport send inside
performPrint, and the finally block clears the marker. -/
def secondSubmitStep (raw : String) (sh : RaceState) (ph : SecondSubmitPhase) :
    RaceState × SecondSubmitPhase :=
  match ph with
  | SecondSubmitPhase.entry =>
      if sh.autoPrintInProgress then (sh, SecondSubmitPhase.finished)
      else if jsTrim (normalizeScannedValue raw) = "" then (sh, SecondSubmitPhase.finished)
      else if normalizeScannedValue raw ∈ sh.scannedSerials then (sh, SecondSubmitPhase.finished)
      else (sh, SecondSubmitPhase.validating)
  | SecondSubmitPhase.validating =>
      ({ sh with scannedSerials := sh.scannedSerials ++ [normalizeScannedValue raw],
                 autoPrintInProgress := true }, SecondSubmitPhase.printing)
  | SecondSubmitPhase.printing =>
      ({ sh with sends := sh.sends + 1, autoPrintInProgress := false },
       SecondSubmitPhase.finished)
  | SecondSubmitPhase.finished => (sh, SecondSubmitPhase.finished)

/-- Run a sequence of scheduler choices over two concurrent invocations of
handleSecondSerialSubmit carrying the same raw value: false steps the first
invocation, true steps the second. -/
def runRace (raw : String) :
    List Bool → RaceState × SecondSubmitPhase × SecondSubmitPhase →
      RaceState × SecondSubmitPhase × SecondSubmitPhase
  | [], s => s
  | c :: cs, (sh, pa, pb) =>
      if c then
        let r := secondSubmitStep raw sh pb
        runRace raw cs (r.1, pa, r.2)
      else
        let r := secondSubmitStep raw sh pa
        runRace raw cs (r.1, r.2, pb)

/-- C2 (code-bug evidence): with one accepted first serial and two duplicate
second-scan-completed signals for 55V0002 that both pass the entry guard
before either suspends on the remote check, the interleaving in which the
first signal then runs to completion and the second resumes afterwards
performs two transport sends, because the in-flight marker is assigned only
after the awaited validation resolves instead of synchronously before the
first suspension. By contrast, a duplicate signal that arrives after the
marker is set (while the print is in flight) is a no-op and one send
occurs. -/
theorem C2_duplicate_signals_double_send :
    (runRace "55V0002" [false, true, false, false, true, true]
        ({ autoPrintInProgress := false, scannedSerials := ["55V0001"], sends := 0 },
         SecondSubmitPhase.entry, SecondSubmitPhase.entry)).1.sends = 2 ∧
    (runRace "55V0002" [false, false, true, false]
        ({ autoPrintInProgress := false, scannedSerials := ["55V0001"], sends := 0 },
         SecondSubmitPhase.entry, SecondSubmitPhase.entry)).1.sends = 1 := by
  constructor <;> decide

end LabelSystem
